import Mathlib

/-!
Verification of `src/collect.py` (FlareMonitor): an Oura-API data collector.
The file embeds the program shallowly: pandas DataFrames become a column
list plus rows of optional cells (`none` models NaN), JSON values become a
layered value type, fallible pandas operations return `Except`, and the
HTTP layer is a function-typed parameter (the transport outcome).
-/

/-- Scalar JSON values (null, booleans, numbers, strings).  Numbers are
modelled as integers; no claim depends on fractional values. -/
inductive Prim where
  | null
  | bool (b : Bool)
  | num (n : Int)
  | str (s : String)
deriving DecidableEq, Repr

/-- A JSON value as it may appear in one cell of a fetched table: a scalar,
an array of scalars, or a one-level object (such as the `contributors`
maps the Oura API returns).  Deeper nesting never occurs in the payloads
this program consumes, so the model stops at this depth. -/
inductive Val where
  | prim (p : Prim)
  | arr (xs : List Prim)
  | obj (kvs : List (String × Prim))
deriving DecidableEq, Repr

/-- A field of the decoded JSON response body: either a plain value or an
array of records (the shape of the `data` field of every Oura endpoint). -/
inductive JField where
  | val (v : Val)
  | recs (rs : List (List (String × Val)))
deriving DecidableEq, Repr

/-- The decoded JSON body of a response: a JSON object, as a key/value list. -/
abbrev Body := List (String × JField)

/-- A pandas DataFrame: an ordered list of column names and a list of rows,
each row a list of cells positionally aligned with `cols`.  A `none` cell
models NaN (pandas' missing value, as produced by a non-matching left join
or a record lacking a key). -/
structure DF (α : Type) where
  cols : List String
  rows : List (List (Option α))
deriving DecidableEq, Repr

namespace DF

/-- `pd.DataFrame()`: the empty frame. -/
def emptyDF {α : Type} : DF α := ⟨[], []⟩

/-- pandas `DataFrame.empty`: true when either axis has length zero. -/
def isEmpty {α : Type} (df : DF α) : Bool := df.rows.isEmpty || df.cols.isEmpty

/-- Well-formedness: every row has exactly one cell per column. -/
def wf {α : Type} (df : DF α) : Prop := ∀ r ∈ df.rows, r.length = df.cols.length

end DF

/-- Index of the first occurrence of column `c` in `cols` (the position
pandas uses when selecting a column by name). -/
def colIdx (cols : List String) (c : String) : Nat :=
  match cols with
  | [] => 0
  | c' :: rest => if c' = c then 0 else colIdx rest c + 1

/-- The cell of `row` in column `c`, where `row` is positionally aligned
with `cols`; out-of-range access yields `none` (only reachable on
ill-formed frames). -/
def getCell {α : Type} (cols : List String) (row : List (Option α)) (c : String) : Option α :=
  row.getD (colIdx cols c) none

namespace DF

/-- pandas `df[cs]` column projection: keeps the requested columns in the
requested order; a requested column absent from the frame raises KeyError,
modelled as `Except.error`. -/
def project {α : Type} (df : DF α) (cs : List String) : Except String (DF α) :=
  if ∀ c ∈ cs, c ∈ df.cols then
    .ok ⟨cs, df.rows.map (fun row => cs.map (fun c => getCell df.cols row c))⟩
  else .error "KeyError"

/-- pandas `df.rename(columns=m)` (the default `inplace=False` form, which
returns a new frame): columns found in the mapping are renamed, all others
are kept; keys of `m` absent from the frame are ignored. -/
def rename {α : Type} (df : DF α) (m : List (String × String)) : DF α :=
  ⟨df.cols.map (fun c => (m.lookup c).getD c), df.rows⟩

end DF

/-- The output columns contributed by one side of a pandas merge: a non-key
column whose name also occurs on the other side (key excluded) receives
that side's suffix; all other columns keep their names. -/
def suffixCols (cols : List String) (other : List String) (key : String) (suf : String) :
    List String :=
  cols.map (fun c => if c ≠ key ∧ c ∈ other then c ++ suf else c)

namespace DF

end DF

/-- The columns of a pandas merge output: the left columns (collisions
suffixed with `sufl`) followed by the right non-key columns (collisions
suffixed with `sufr`). -/
def mergeCols (lcols rcols : List String) (key : String) (sufl sufr : String) : List String :=
  suffixCols lcols (rcols.filter (fun c => c ≠ key)) key sufl
    ++ (rcols.filter (fun c => c ≠ key)).map (fun c => if c ∈ lcols then c ++ sufr else c)

/-- The right rows whose key cell equals a left row's key cell (pandas
matches NaN keys to NaN keys in a merge, hence plain `Option` equality). -/
def mergeMatches {α : Type} [DecidableEq α] (l r : DF α) (key : String)
    (lrow : List (Option α)) : List (List (Option α)) :=
  r.rows.filter (fun rrow => decide (getCell r.cols rrow key = getCell l.cols lrow key))

/-- The rows a single left row contributes to a left merge: one output row
per matching right row, or, with no match, the left row padded with
`none` (NaN) in every right-side column. -/
def mergeBlock {α : Type} [DecidableEq α] (l r : DF α) (key : String)
    (lrow : List (Option α)) : List (List (Option α)) :=
  if (mergeMatches l r key lrow).isEmpty then
    [lrow ++ (r.cols.filter (fun c => c ≠ key)).map (fun _ => (none : Option α))]
  else (mergeMatches l r key lrow).map
    (fun rrow => lrow ++ (r.cols.filter (fun c => c ≠ key)).map (fun c => getCell r.cols rrow c))

namespace DF

/-- pandas `l.merge(r, on=key, how='left', suffixes=(sufl, sufr))`: the
merged columns per `mergeCols`, and every left row's `mergeBlock` in
order.  A missing key column on either side raises KeyError, modelled as
`Except.error`. -/
def merge {α : Type} [DecidableEq α] (l r : DF α) (key : String) (sufl sufr : String) :
    Except String (DF α) :=
  if key ∈ l.cols ∧ key ∈ r.cols then
    .ok ⟨mergeCols l.cols r.cols key sufl sufr, l.rows.flatMap (mergeBlock l r key)⟩
  else .error "KeyError"

/-- The list of `day` cells of a frame, row by row. -/
def dayVals {α : Type} (df : DF α) : List (Option α) :=
  df.rows.map (fun row => getCell df.cols row "day")

/-- At most one row per day: no `day` value occurs in two rows. -/
def onePerDay {α : Type} (df : DF α) : Prop := df.dayVals.Nodup

end DF

/-! ## The HTTP client (`OuraDataCollector._make_request`, `get_date_range`) -/

/-- The outcome of the one `requests.get` call inside `_make_request`:
either the transport raised (connection error, timeout, too many
redirects — all `requests.exceptions.RequestException`), or a response
arrived with a status code and a body that either decodes to JSON or does
not.  With requests ≥ 2.27 a body that fails to decode raises
`requests.exceptions.JSONDecodeError`, a subclass of `RequestException`. -/
inductive Transport where
  | raised
  | got (status : Nat) (body : Except String Body)
deriving Repr

/-- `OuraDataCollector._make_request` (src/collect.py lines 27-36): run the
GET, call `raise_for_status` (which raises exactly for status codes
400-599), decode the body; any `RequestException` from those three steps
is caught, an operator message is printed, and `None` is returned.  The
result is the returned payload paired with the printed messages; the
function is total (the `try`/`except` catches every exception the body
can raise), which models "never raises to the caller". -/
def make_request (t : Transport) (endpoint : String) : Option Body × List String :=
  match t with
  | .raised => (none, ["Error fetching " ++ endpoint])
  | .got status body =>
    if 400 ≤ status ∧ status < 600 then (none, ["Error fetching " ++ endpoint])
    else match body with
      | .error _ => (none, ["Error fetching " ++ endpoint])
      | .ok b => (some b, [])

/-- `OuraDataCollector.get_date_range` (src/collect.py lines 38-42): dates
are modelled as proleptic-Gregorian ordinals (integers counting days), the
representation on which Python's `date`/`timedelta` day arithmetic acts;
the final `isoformat` rendering is an injective encoding at the transport
boundary and is not modelled.  `end_date = datetime.now().date()` (the
parameter `today`), `start_date = end_date - timedelta(days=days_back)`;
returns `(start_date, end_date)`. -/
def get_date_range (today : Int) (days_back : Int) : Int × Int :=
  (today - days_back, today)

/-! ## Dataset fetchers (src/collect.py lines 44-90) -/

/-- A client as the fetchers see it: endpoint name and the `start_date` /
`end_date` query parameters in, the payload `_make_request` returned out
(`none` models a request that failed softly). -/
abbrev Client := String → Int → Int → Option Body

/-- pandas `pd.DataFrame(recs)` on a list of records (dicts): columns are
the union of the record keys in order of first appearance; each row holds
the record's value per column, `none` (NaN) where the record lacks the
key. -/
def dfOfRecords (rs : List (List (String × Val))) : DF Val :=
  let cols := rs.foldl
    (fun acc kvs => (kvs.map Prod.fst).foldl (fun a k => if k ∈ a then a else a ++ [k]) acc) []
  ⟨cols, rs.map (fun kvs => cols.map (fun c => kvs.lookup c))⟩

/-- pandas `pd.DataFrame(x)` applied to the `data` field of a payload.
The Oura API's `data` field is always an array of objects, the one shape
this model supports; any other shape is modelled as a constructor error. -/
def dfOfData (d : JField) : Except String (DF Val) :=
  match d with
  | .recs rs => .ok (dfOfRecords rs)
  | .val _ => .error "pandas: DataFrame constructor called with unsupported data"

/-- The shared body of the six fetchers (e.g. `fetch_daily_sleep`,
src/collect.py lines 44-50): call the client with the endpoint and the
date window; if the payload is truthy (non-`None`, non-empty object) and
has a `data` key, build a DataFrame from `data`, otherwise return the
empty DataFrame. -/
def fetchTable (client : Client) (endpoint : String) (start_date end_date : Int) :
    Except String (DF Val) :=
  match client endpoint start_date end_date with
  | none => .ok DF.emptyDF
  | some payload =>
    if payload ≠ [] then
      match payload.lookup "data" with
      | some d => dfOfData d
      | none => .ok DF.emptyDF
    else .ok DF.emptyDF

/-- `fetch_daily_sleep` (src/collect.py lines 44-50). -/
def fetch_daily_sleep (client : Client) (s e : Int) : Except String (DF Val) :=
  fetchTable client "daily_sleep" s e

/-- `fetch_daily_readiness` (src/collect.py lines 52-58). -/
def fetch_daily_readiness (client : Client) (s e : Int) : Except String (DF Val) :=
  fetchTable client "daily_readiness" s e

/-- `fetch_daily_activity` (src/collect.py lines 60-66). -/
def fetch_daily_activity (client : Client) (s e : Int) : Except String (DF Val) :=
  fetchTable client "daily_activity" s e

/-- `fetch_heart_rate` (src/collect.py lines 68-74); its endpoint is
`heartrate`. -/
def fetch_heart_rate (client : Client) (s e : Int) : Except String (DF Val) :=
  fetchTable client "heartrate" s e

/-- `fetch_daily_stress` (src/collect.py lines 76-82). -/
def fetch_daily_stress (client : Client) (s e : Int) : Except String (DF Val) :=
  fetchTable client "daily_stress" s e

/-- `fetch_sleep_time_series` (src/collect.py lines 84-90); its endpoint
is `sleep`. -/
def fetch_sleep_time_series (client : Client) (s e : Int) : Except String (DF Val) :=
  fetchTable client "sleep" s e

/-! ## `collect_all_data` (src/collect.py lines 92-130) -/

/-- The `for name, fetch_func in datasets.items()` loop of
`collect_all_data`: for each dataset in order, a non-empty table is
written to `{name}.csv` and recorded in the result dictionary; an empty
table is skipped.  The loop returns the result dictionary together with
the names of the files written; an exception from a fetcher propagates. -/
def collectLoop (l : List (String × Except String (DF Val))) :
    Except String (List (String × DF Val) × List String) :=
  match l with
  | [] => .ok ([], [])
  | (n, edf) :: rest => do
    let df ← edf
    let (rs, fs) ← collectLoop rest
    if ¬ df.isEmpty then .ok ((n, df) :: rs, (n ++ ".csv") :: fs) else .ok (rs, fs)

/-- `collect_all_data` (src/collect.py lines 92-130): compute the date
window, run the six fetchers in the fixed dictionary order, keep each
non-empty table in the returned collection and write it to
`{name}.csv`.  Directory creation and progress printing are not
modelled.  Returns (collection, written file names). -/
def collect_all_data (client : Client) (days_back : Int) (today : Int) :
    Except String (List (String × DF Val) × List String) :=
  let (start_date, end_date) := get_date_range today days_back
  collectLoop
    [("daily_sleep", fetch_daily_sleep client start_date end_date),
     ("daily_readiness", fetch_daily_readiness client start_date end_date),
     ("daily_activity", fetch_daily_activity client start_date end_date),
     ("heart_rate", fetch_heart_rate client start_date end_date),
     ("daily_stress", fetch_daily_stress client start_date end_date),
     ("sleep_time_series", fetch_sleep_time_series client start_date end_date)]

/-! ## `create_feature_summary` (src/collect.py lines 132-166) -/

/-- One merge step of `create_feature_summary`: when the optional table is
present (in the collection) and non-empty, project it to `cs`, rename
its columns by `ren?` when a rename is called, and left-join it onto the
accumulator on `day` with the given suffix pair; otherwise leave the
accumulator unchanged.  Projection and merge may raise (KeyError),
modelled by `Except`. -/
def addTable (acc : DF Val) (t? : Option (DF Val)) (cs : List String)
    (ren? : Option (List (String × String))) (sufl sufr : String) : Except String (DF Val) :=
  match t? with
  | none => .ok acc
  | some t =>
    if ¬ t.isEmpty then do
      let p ← t.project cs
      let p := match ren? with
        | some m => p.rename m
        | none => p
      acc.merge p "day" sufl sufr
    else .ok acc

/-- The collection `collect_all_data` returns, as `create_feature_summary`
consumes it: a dictionary from dataset name to table. -/
abbrev Collection := List (String × DF Val)

/-- `create_feature_summary` (src/collect.py lines 132-166).  If either
mandatory table is missing the function prints a notice and returns
`None` without writing anything.  Otherwise it copies `daily_readiness`
as the accumulator, left-joins the projected/renamed `daily_sleep`
(suffixes `('', '_sleep')`), then `daily_activity` when present and
non-empty (suffixes `('', '_activity')`), then `daily_stress` when
present and non-empty (projection only, pandas default suffixes
`('_x', '_y')`), writes `daily_features.csv` and returns the result.
The value is the returned table (`none` on the missing-input path)
paired with the files written; a pandas exception propagates as
`Except.error`. -/
def create_feature_summary (d : Collection) :
    Except String (Option (DF Val) × List (String × DF Val)) :=
  match d.lookup "daily_sleep", d.lookup "daily_readiness" with
  | some sleep, some readiness => do
    let df := readiness
    let df ← addTable df (some sleep) ["day", "score", "contributors"]
      (some [("score", "sleep_score")]) "" "_sleep"
    let df ← addTable df (d.lookup "daily_activity") ["day", "score", "contributors"]
      (some [("score", "activity_score")]) "" "_activity"
    let df ← addTable df (d.lookup "daily_stress") ["day", "stress_high", "recovery_high"]
      none "_x" "_y"
    .ok (some df, [("daily_features.csv", df)])
  | _, _ => .ok (none, [])

/-! ## A heap-level rendering of `create_feature_summary`

To express that the merger never mutates the frames it is handed (every
pandas call it makes — `.copy()`, column selection, `rename`, `merge` —
returns a fresh frame), the function is re-read over an explicit heap of
frames: the collection maps names to heap indices, and each
frame-returning pandas call allocates.  The claim becomes: the final heap
extends the initial one, so every pre-existing frame is untouched. -/

/-- The heap of live DataFrame objects; an index is an object reference. -/
abbrev Heap (α : Type) := List (DF α)

/-- Dereference a frame (ill-formed references yield the empty frame). -/
def hget {α : Type} (h : Heap α) (i : Nat) : DF α := h.getD i DF.emptyDF

/-- Allocate a fresh frame, returning the new heap and the reference. -/
def halloc {α : Type} (h : Heap α) (df : DF α) : Heap α × Nat := (h ++ [df], h.length)

/-- One merge step of `create_feature_summary` over the heap, mirroring
`addTable`: column selection, `.copy()`, `rename` and `merge` each
allocate a fresh frame and mutate nothing. -/
def addTableHeap (h : Heap Val) (acci : Nat) (ti? : Option Nat) (cs : List String)
    (ren? : Option (List (String × String))) (sufl sufr : String) :
    Except String (Heap Val × Nat) :=
  match ti? with
  | none => .ok (h, acci)
  | some ti =>
    if ¬ (hget h ti).isEmpty then do
      let p ← (hget h ti).project cs
      let (h, pi) := halloc h p
      let (h, pi) := halloc h (hget h pi)
      let (h, pi) := match ren? with
        | some m => halloc h ((hget h pi).rename m)
        | none => (h, pi)
      let m ← (hget h acci).merge (hget h pi) "day" sufl sufr
      let (h, mi) := halloc h m
      .ok (h, mi)
    else .ok (h, acci)

/-- `create_feature_summary` over the heap: the collection holds frame
references; the result is the final heap and the reference of the
returned frame (`none` on the missing-input path). -/
def create_feature_summary_heap (h : Heap Val) (d : List (String × Nat)) :
    Except String (Heap Val × Option Nat) :=
  match d.lookup "daily_sleep", d.lookup "daily_readiness" with
  | some si, some ri => do
    let (h, dfi) := halloc h (hget h ri)
    let (h, dfi) ← addTableHeap h dfi (some si) ["day", "score", "contributors"]
      (some [("score", "sleep_score")]) "" "_sleep"
    let (h, dfi) ← addTableHeap h dfi (d.lookup "daily_activity") ["day", "score", "contributors"]
      (some [("score", "activity_score")]) "" "_activity"
    let (h, dfi) ← addTableHeap h dfi (d.lookup "daily_stress") ["day", "stress_high", "recovery_high"]
      none "_x" "_y"
    .ok (h, some dfi)
  | _, _ => .ok (h, none)

/-! ## The entry point `main` (src/collect.py lines 169-194) -/

/-- Python's `str.strip()` whitespace set (the ASCII part; `str.strip`
also removes a handful of Unicode spaces, which no claim exercises). -/
def pyIsSpace (c : Char) : Bool :=
  c = ' ' || c = '\t' || c = '\n' || c = '\r' || c = '\x0b' || c = '\x0c'

/-- Python's `str.strip()`: drop leading and trailing whitespace. -/
def pyStrip (s : String) : String :=
  String.mk (((s.data.dropWhile pyIsSpace).reverse.dropWhile pyIsSpace).reverse)

/-- What `main` does with the interactive input before any collector or
network activity: abort with a printed error, or construct the collector
with the stripped token and proceed. -/
inductive MainAct where
  | aborted (msg : String)
  | ran (token : String)
deriving DecidableEq, Repr

/-- The token handling of `main` (src/collect.py lines 174-181): the
interactive input is stripped; a falsy (empty) result aborts the run
before the collector is constructed, anything else proceeds to construct
`OuraDataCollector(token)`. -/
def main_entry (input : String) : MainAct :=
  let token := pyStrip input
  if token = "" then .aborted "Error: No token provided" else .ran token

/-! ## Lemmas about columns, cells and merging -/

lemma colIdx_lt_length {cols : List String} {c : String} (h : c ∈ cols) :
    colIdx cols c < cols.length := by
  induction cols with
  | nil => cases h
  | cons c' rest ih =>
    simp only [colIdx]
    split
    · simp
    · rename_i hne
      have hr : c ∈ rest := by
        cases h with
        | head => exact absurd rfl hne
        | tail _ h => exact h
      simpa using ih hr

lemma colIdx_append {l1 l2 : List String} {c : String} (h : c ∈ l1) :
    colIdx (l1 ++ l2) c = colIdx l1 c := by
  induction l1 with
  | nil => cases h
  | cons c' rest ih =>
    simp only [List.cons_append, colIdx]
    split
    · rfl
    · rename_i hne
      have hr : c ∈ rest := by
        cases h with
        | head => exact absurd rfl hne
        | tail _ h => exact h
      exact congrArg (· + 1) (ih hr)

lemma colIdx_map {l : List String} {f : String → String} {c : String}
    (hf : ∀ a ∈ l, (f a = c ↔ a = c)) : colIdx (l.map f) c = colIdx l c := by
  induction l with
  | nil => rfl
  | cons a rest ih =>
    simp only [List.map_cons, colIdx]
    have hiff := hf a (by simp)
    by_cases ha : a = c
    · rw [if_pos (hiff.mpr ha), if_pos ha]
    · rw [if_neg (fun h => ha (hiff.mp h)), if_neg ha,
        ih (fun x hx => hf x (List.mem_cons_of_mem a hx))]

lemma getCell_mergeCols_day {α : Type} {lcols rcols : List String} {sufl sufr : String}
    {lrow tail : List (Option α)} (hlen : lrow.length = lcols.length) (hday : "day" ∈ lcols)
    (hs : ∀ a : String, a ≠ "day" → a ++ sufl ≠ "day") :
    getCell (mergeCols lcols rcols "day" sufl sufr) (lrow ++ tail) "day"
      = getCell lcols lrow "day" := by
  set f : String → String :=
    fun c => if c ≠ "day" ∧ c ∈ rcols.filter (fun c => c ≠ "day") then c ++ sufl else c with hfdef
  have hf : ∀ a ∈ lcols, (f a = "day" ↔ a = "day") := by
    intro a _
    constructor
    · intro h
      by_cases hm : a ≠ "day" ∧ a ∈ rcols.filter (fun c => c ≠ "day")
      · rw [hfdef] at h
        simp only [if_pos hm] at h
        exact absurd h (hs a hm.1)
      · rw [hfdef] at h
        simpa only [if_neg hm] using h
    · intro h
      subst h
      rw [hfdef]
      simp
  have hfd : f "day" = "day" := (hf "day" hday).mpr rfl
  have hmem : "day" ∈ lcols.map f := List.mem_map.mpr ⟨"day", hday, hfd⟩
  have hcols : mergeCols lcols rcols "day" sufl sufr
      = lcols.map f ++ (rcols.filter (fun c => c ≠ "day")).map
          (fun c => if c ∈ lcols then c ++ sufr else c) := rfl
  unfold getCell
  rw [hcols, colIdx_append hmem, colIdx_map hf]
  have hlt : colIdx lcols "day" < lrow.length := hlen ▸ colIdx_lt_length hday
  exact List.getD_append _ _ _ _ hlt

lemma mergeBlock_ne_nil {α : Type} [DecidableEq α] (l r : DF α) (key : String)
    (lrow : List (Option α)) : mergeBlock l r key lrow ≠ [] := by
  unfold mergeBlock
  split
  · simp
  · rename_i h
    simp only [ne_eq, List.map_eq_nil_iff]
    intro hnil
    rw [hnil] at h
    simp at h

lemma mergeBlock_shape {α : Type} [DecidableEq α] {l r : DF α} {key : String}
    {lrow row : List (Option α)} (h : row ∈ mergeBlock l r key lrow) :
    ∃ tail, row = lrow ++ tail ∧ tail.length = (r.cols.filter (fun c => c ≠ key)).length := by
  unfold mergeBlock at h
  split at h
  · simp only [List.mem_singleton] at h
    exact ⟨_, h, by simp⟩
  · obtain ⟨rrow, _, hr⟩ := List.mem_map.mp h
    exact ⟨_, hr.symm, by simp⟩

lemma merge_eq_ok {α : Type} [DecidableEq α] {l r : DF α} {key sufl sufr : String} {out : DF α}
    (h : DF.merge l r key sufl sufr = .ok out) :
    key ∈ l.cols ∧ key ∈ r.cols ∧
    out = ⟨mergeCols l.cols r.cols key sufl sufr, l.rows.flatMap (mergeBlock l r key)⟩ := by
  unfold DF.merge at h
  split at h
  · rename_i hg
    refine ⟨hg.1, hg.2, ?_⟩
    injection h with h
    exact h.symm
  · cases h

lemma merge_wf {α : Type} [DecidableEq α] {l r : DF α} {key sufl sufr : String} {out : DF α}
    (hl : l.wf) (h : DF.merge l r key sufl sufr = .ok out) : out.wf := by
  obtain ⟨hk1, hk2, rfl⟩ := merge_eq_ok h
  intro row hrow
  simp only [List.mem_flatMap] at hrow
  obtain ⟨lrow, hlrow, hblock⟩ := hrow
  obtain ⟨tail, rfl, htail⟩ := mergeBlock_shape hblock
  simp [mergeCols, suffixCols, hl lrow hlrow, htail]

lemma merge_dayVals {α : Type} [DecidableEq α] {l r : DF α} {sufl sufr : String} {out : DF α}
    (hl : l.wf) (h : DF.merge l r "day" sufl sufr = .ok out)
    (hs : ∀ a : String, a ≠ "day" → a ++ sufl ≠ "day") :
    ∀ v, v ∈ out.dayVals ↔ v ∈ l.dayVals := by
  obtain ⟨hk1, hk2, rfl⟩ := merge_eq_ok h
  intro v
  simp only [DF.dayVals, List.mem_map]
  constructor
  · rintro ⟨row, hrow, rfl⟩
    simp only [List.mem_flatMap] at hrow
    obtain ⟨lrow, hlrow, hblock⟩ := hrow
    obtain ⟨tail, rfl, _⟩ := mergeBlock_shape hblock
    exact ⟨lrow, hlrow, (getCell_mergeCols_day (hl lrow hlrow) hk1 hs).symm⟩
  · rintro ⟨lrow, hlrow, rfl⟩
    obtain ⟨row, hrow⟩ := List.exists_mem_of_ne_nil _ (mergeBlock_ne_nil l r "day" lrow)
    obtain ⟨tail, rfl, _⟩ := mergeBlock_shape hrow
    exact ⟨lrow ++ tail, List.mem_flatMap.mpr ⟨lrow, hlrow, hrow⟩,
      getCell_mergeCols_day (hl lrow hlrow) hk1 hs⟩

lemma append_empty_suffix_ne_day : ∀ a : String, a ≠ "day" → a ++ "" ≠ "day" := by
  intro a h
  simpa using h

lemma append_x_ne_day : ∀ a : String, a ++ "_x" ≠ "day" := by
  intro a h
  have hd : a.data ++ ['_', 'x'] = ['d', 'a', 'y'] := by
    have h2 := congrArg String.data h
    simpa [String.data_append] using h2
  have hl : a.data.length + 2 = 3 := by
    simpa using congrArg List.length hd
  obtain ⟨c, hc⟩ : ∃ c, a.data = [c] := by
    cases ha : a.data with
    | nil => rw [ha] at hl; simp at hl
    | cons c t =>
      cases t with
      | nil => exact ⟨c, rfl⟩
      | cons d t2 => rw [ha] at hl; simp at hl
  rw [hc] at hd
  injection hd with h1 h2
  injection h2 with h3 _
  exact absurd h3 (by decide)

lemma addTable_ok {acc : DF Val} {t? : Option (DF Val)} {cs : List String}
    {ren? : Option (List (String × String))} {sufl sufr : String} {acc' : DF Val}
    (h : addTable acc t? cs ren? sufl sufr = .ok acc') (hacc : acc.wf)
    (hs : ∀ a : String, a ≠ "day" → a ++ sufl ≠ "day") :
    acc'.wf ∧ ∀ v, v ∈ acc'.dayVals ↔ v ∈ acc.dayVals := by
  cases t? with
  | none =>
    simp only [addTable] at h
    injection h with h
    subst h
    exact ⟨hacc, fun v => Iff.rfl⟩
  | some t =>
    simp only [addTable] at h
    split at h
    · cases hp : t.project cs with
      | error e =>
        rw [hp] at h
        simp [Bind.bind, Except.bind] at h
      | ok p =>
        rw [hp] at h
        simp only [Bind.bind, Except.bind] at h
        exact ⟨merge_wf hacc h, merge_dayVals hacc h hs⟩
    · injection h with h
      subst h
      exact ⟨hacc, fun v => Iff.rfl⟩

/-! ## Concrete fixtures used by the claim witnesses -/

/-- A one-day readiness table, `[{day: "2024-01-01", score: 80}]`. -/
def R0 : DF Val :=
  ⟨["day", "score"], [[some (Val.prim (Prim.str "2024-01-01")), some (Val.prim (Prim.num 80))]]⟩

/-- A one-day sleep table, `[{day: "2024-01-01", score: 70, contributors: {deep_sleep: 60}}]`. -/
def S0 : DF Val :=
  ⟨["day", "score", "contributors"],
   [[some (Val.prim (Prim.str "2024-01-01")), some (Val.prim (Prim.num 70)),
     some (Val.obj [("deep_sleep", Prim.num 60)])]]⟩

/-- A collection holding exactly the two mandatory tables. -/
def D0 : Collection := [("daily_sleep", S0), ("daily_readiness", R0)]

/-- The table `create_feature_summary` produces on `D0`. -/
def out0 : DF Val :=
  match create_feature_summary D0 with
  | .ok (some df, _) => df
  | _ => DF.emptyDF

/-! ## C1: the merged table's day set equals the readiness day set -/

/-- C1: for every collection in which `daily_sleep` and `daily_readiness`
are present and every source table has at most one row per day, the set
of `day` values of the table `create_feature_summary` returns equals
exactly the set of `day` values of the `daily_readiness` input; a day
present in `daily_sleep`, `daily_activity` or `daily_stress` but absent
from `daily_readiness` never appears in the output. -/
theorem create_feature_summary_day_set
    {d : Collection} {S R out : DF Val} {fs : List (String × DF Val)}
    (hS : d.lookup "daily_sleep" = some S)
    (hR : d.lookup "daily_readiness" = some R)
    (hwfR : R.wf)
    (hone1 : S.onePerDay) (hone2 : R.onePerDay)
    (hone3 : ∀ A, d.lookup "daily_activity" = some A → A.onePerDay)
    (hone4 : ∀ T, d.lookup "daily_stress" = some T → T.onePerDay)
    (hok : create_feature_summary d = .ok (some out, fs)) :
    ∀ v, v ∈ out.dayVals ↔ v ∈ R.dayVals := by
  unfold create_feature_summary at hok
  rw [hS, hR] at hok
  dsimp only at hok
  cases h1 : addTable R (some S) ["day", "score", "contributors"]
      (some [("score", "sleep_score")]) "" "_sleep" with
  | error e => rw [h1] at hok; simp [Bind.bind, Except.bind] at hok
  | ok acc1 =>
    rw [h1] at hok
    obtain ⟨hw1, hd1⟩ := addTable_ok h1 hwfR append_empty_suffix_ne_day
    simp only [Bind.bind, Except.bind] at hok
    cases h2 : addTable acc1 (d.lookup "daily_activity") ["day", "score", "contributors"]
        (some [("score", "activity_score")]) "" "_activity" with
    | error e => rw [h2] at hok; simp at hok
    | ok acc2 =>
      rw [h2] at hok
      dsimp only at hok
      obtain ⟨hw2, hd2⟩ := addTable_ok h2 hw1 append_empty_suffix_ne_day
      cases h3 : addTable acc2 (d.lookup "daily_stress") ["day", "stress_high", "recovery_high"]
          none "_x" "_y" with
      | error e => rw [h3] at hok; simp at hok
      | ok acc3 =>
        rw [h3] at hok
        dsimp only at hok
        obtain ⟨hw3, hd3⟩ := addTable_ok h3 hw2 (fun a _ => append_x_ne_day a)
        simp only [Except.ok.injEq, Prod.mk.injEq, Option.some.injEq] at hok
        obtain ⟨rfl, -⟩ := hok
        intro v
        exact (hd3 v).trans ((hd2 v).trans (hd1 v))

/-- Witness for C1: on the concrete collection `D0` all hypotheses hold,
`create_feature_summary` succeeds, and the day sets agree at the day
`"2024-01-01"`. -/
theorem create_feature_summary_day_set_witness :
    (some (Val.prim (Prim.str "2024-01-01")) ∈ out0.dayVals
      ↔ some (Val.prim (Prim.str "2024-01-01")) ∈ R0.dayVals) := by
  have hact : D0.lookup "daily_activity" = none := rfl
  have hstr : D0.lookup "daily_stress" = none := rfl
  exact @create_feature_summary_day_set D0 S0 R0 out0 [("daily_features.csv", out0)]
    rfl rfl
    (by decide : ∀ r ∈ R0.rows, r.length = R0.cols.length)
    (by decide : S0.dayVals.Nodup) (by decide : R0.dayVals.Nodup)
    (fun A hA => by rw [hact] at hA; cases hA)
    (fun T hT => by rw [hstr] at hT; cases hT)
    rfl (some (Val.prim (Prim.str "2024-01-01")))

/-! ## C2: merge column naming on the spec's concrete example -/

/-- C2: merging a `daily_readiness` table whose row has `score == 80` with
a `daily_sleep` table whose row for the same day has `score == 70` yields
a merged row whose `score` column is readiness's own 80 and whose
`sleep_score` column is 70, with no column literally named `score_sleep`
in the output. -/
theorem create_feature_summary_column_naming :
    create_feature_summary D0 = .ok (some out0, [("daily_features.csv", out0)])
    ∧ out0.rows.length = 1
    ∧ (∀ row ∈ out0.rows,
        getCell out0.cols row "score" = some (Val.prim (Prim.num 80))
        ∧ getCell out0.cols row "sleep_score" = some (Val.prim (Prim.num 70)))
    ∧ "score_sleep" ∉ out0.cols := by
  refine ⟨rfl, by decide, by decide, by decide⟩

/-! ## C3: missing mandatory inputs -/

/-- C3: a collection lacking `daily_sleep` or lacking `daily_readiness`
makes `create_feature_summary` return the absent result and write no
file (its file-write list is empty, so per-dataset files already on disk
are untouched). -/
theorem create_feature_summary_missing_input {d : Collection}
    (h : d.lookup "daily_sleep" = none ∨ d.lookup "daily_readiness" = none) :
    create_feature_summary d = .ok (none, []) := by
  rcases h with h | h
  · unfold create_feature_summary
    rw [h]
  · unfold create_feature_summary
    rw [h]
    cases d.lookup "daily_sleep" <;> rfl

/-- Witness for C3: the empty collection lacks both mandatory tables. -/
theorem create_feature_summary_missing_input_witness :
    create_feature_summary [] = .ok (none, []) :=
  create_feature_summary_missing_input (Or.inl rfl)

/-! ## C4: the client's soft-failure behaviour -/

/-- C4 (amended): on a connection error, a 4xx or 5xx status, or a
malformed (non-JSON) response body, `_make_request` reports the error to
the operator and returns `None`; the `try`/`except RequestException`
catches every exception those steps can raise (with requests ≥ 2.27 the
JSON decode error is a `RequestException` too), so the embedding is a
total function — nothing propagates to the caller.  The original claim
said every non-2xx status is such a failure; `raise_for_status` only
raises for 400-599, so 1xx/3xx responses that reach the client are
passed through (see the counterexample). -/
theorem make_request_soft_failure (t : Transport) (endpoint : String)
    (h : t = .raised
      ∨ (∃ s b, t = .got s b ∧ 400 ≤ s ∧ s < 600)
      ∨ (∃ s msg, t = .got s (.error msg))) :
    make_request t endpoint = (none, ["Error fetching " ++ endpoint]) := by
  rcases h with rfl | ⟨s, b, rfl, hs⟩ | ⟨s, msg, rfl⟩
  · rfl
  · unfold make_request
    dsimp only
    rw [if_pos hs]
  · unfold make_request
    dsimp only
    split
    · rfl
    · rfl

/-- Witness for C4: a connection error yields `None` plus the report. -/
theorem make_request_soft_failure_witness :
    make_request Transport.raised "daily_sleep" = (none, ["Error fetching daily_sleep"]) :=
  make_request_soft_failure Transport.raised "daily_sleep" (Or.inl rfl)

/-- C4 counterexample: a non-2xx status outside 400-599 (here 304, which
`requests` does not auto-follow) whose body decodes as JSON is not
treated as a failure: the payload is returned and nothing is reported,
so "non-2xx status implies `None`" is false of the code. -/
theorem make_request_non2xx_counterexample :
    make_request (Transport.got 304 (.ok [])) "daily_sleep" = (some [], [])
    ∧ (make_request (Transport.got 304 (.ok [])) "daily_sleep").1 ≠ none := by
  exact ⟨rfl, by decide⟩

/-! ## C5: fetchers degrade to an empty table -/

/-- The three degenerate payload situations of C5: the client returned no
payload, a payload without a `data` key, or a payload whose `data` array
is empty. -/
def clientNoData (p : Option Body) : Prop :=
  p = none
    ∨ (∃ kvs, p = some kvs ∧ kvs.lookup "data" = none)
    ∨ (∃ kvs, p = some kvs ∧ kvs.lookup "data" = some (JField.recs []))

lemma fetchTable_no_data {client : Client} {ep : String} {s e : Int}
    (h : clientNoData (client ep s e)) :
    fetchTable client ep s e = .ok DF.emptyDF := by
  rcases h with h | ⟨kvs, h, hk⟩ | ⟨kvs, h, hk⟩
  · unfold fetchTable
    rw [h]
  · unfold fetchTable
    rw [h]
    dsimp only
    split
    · simp [hk]
    · rfl
  · unfold fetchTable
    rw [h]
    dsimp only
    split
    · simp [hk, dfOfData, dfOfRecords, DF.emptyDF]
    · rfl

/-- C5: each of the six dataset fetchers (`fetch_daily_sleep`,
`fetch_daily_readiness`, `fetch_daily_activity`, `fetch_heart_rate`,
`fetch_daily_stress`, `fetch_sleep_time_series`) returns a zero-row
table — in fact the empty frame — and never raises, whenever the client
produced no payload, a payload whose `data` key is absent, or a payload
whose `data` array is empty. -/
theorem fetchers_degrade_to_empty (client : Client) (s e : Int) :
    (clientNoData (client "daily_sleep" s e) →
      fetch_daily_sleep client s e = .ok DF.emptyDF)
    ∧ (clientNoData (client "daily_readiness" s e) →
      fetch_daily_readiness client s e = .ok DF.emptyDF)
    ∧ (clientNoData (client "daily_activity" s e) →
      fetch_daily_activity client s e = .ok DF.emptyDF)
    ∧ (clientNoData (client "heartrate" s e) →
      fetch_heart_rate client s e = .ok DF.emptyDF)
    ∧ (clientNoData (client "daily_stress" s e) →
      fetch_daily_stress client s e = .ok DF.emptyDF)
    ∧ (clientNoData (client "sleep" s e) →
      fetch_sleep_time_series client s e = .ok DF.emptyDF) :=
  ⟨fun h => fetchTable_no_data h, fun h => fetchTable_no_data h,
   fun h => fetchTable_no_data h, fun h => fetchTable_no_data h,
   fun h => fetchTable_no_data h, fun h => fetchTable_no_data h⟩

/-- Witness for C5: a client that always fails gives the empty frame. -/
theorem fetchers_degrade_to_empty_witness :
    fetch_daily_sleep (fun _ _ _ => none) 0 0 = .ok DF.emptyDF :=
  (fetchers_degrade_to_empty (fun _ _ _ => none) 0 0).1 (Or.inl rfl)

/-! ## C6: the date window arithmetic -/

/-- C6: for every `days_back ≥ 0` the window `get_date_range` computes
satisfies `end_date - start_date = days_back` (in calendar days, on day
ordinals) and `end_date` equals the current date of the run. -/
theorem get_date_range_window (today days_back : Int) (h : 0 ≤ days_back) :
    (get_date_range today days_back).2 - (get_date_range today days_back).1 = days_back
    ∧ (get_date_range today days_back).2 = today := by
  unfold get_date_range
  constructor
  · ring
  · rfl

/-- Witness for C6 at `days_back = 300`. -/
theorem get_date_range_window_witness :
    (get_date_range 739000 300).2 - (get_date_range 739000 300).1 = 300
    ∧ (get_date_range 739000 300).2 = 739000 :=
  get_date_range_window 739000 300 (by decide)

/-! ## C9: whitespace-only tokens abort the run -/

lemma pyStrip_all_space {s : String} (h : ∀ c ∈ s.data, pyIsSpace c) :
    pyStrip s = "" := by
  unfold pyStrip
  rw [List.dropWhile_eq_nil_iff.mpr h]
  rfl

/-- C9: a token consisting only of whitespace is treated like an empty
token: `main` strips the interactive input before testing it, so a
whitespace-only input aborts the run with the operator-visible error
before any collector is constructed or network activity occurs. -/
theorem main_entry_whitespace_aborts {s : String} (h : ∀ c ∈ s.data, pyIsSpace c) :
    main_entry s = .aborted "Error: No token provided" := by
  unfold main_entry
  rw [pyStrip_all_space h]
  rfl

/-- Witness for C9 on the input of three blanks and a tab. -/
theorem main_entry_whitespace_aborts_witness :
    main_entry "   \t" = .aborted "Error: No token provided" :=
  main_entry_whitespace_aborts (by decide)

/-! ## C7: the collection keeps exactly the non-empty tables -/

/-- The six fetch results in the fixed dictionary order of
`collect_all_data`. -/
def sixTables (d1 d2 d3 d4 d5 d6 : DF Val) : List (String × DF Val) :=
  [("daily_sleep", d1), ("daily_readiness", d2), ("daily_activity", d3),
   ("heart_rate", d4), ("daily_stress", d5), ("sleep_time_series", d6)]

lemma collectLoop_ok (l : List (String × DF Val)) :
    collectLoop (l.map (fun p => (p.1, Except.ok p.2)))
      = .ok (l.filter (fun p => !p.2.isEmpty),
             (l.filter (fun p => !p.2.isEmpty)).map (fun p => p.1 ++ ".csv")) := by
  induction l with
  | nil => rfl
  | cons p rest ih =>
    obtain ⟨n, df⟩ := p
    simp only [List.map_cons, collectLoop, ih, Bind.bind, Except.bind, List.filter_cons]
    by_cases hdf : df.isEmpty
    · simp [hdf]
    · simp [hdf]

/-- C7: the collection `collect_all_data` returns contains exactly those
dataset names whose fetcher returned a non-empty table, each mapped to
that table, in the fixed order; a dataset whose fetch yielded an empty
table is omitted and no file is written for it (the written files are
exactly `{name}.csv` for the kept datasets). -/
theorem collect_all_data_keeps_nonempty (client : Client) (days_back today : Int)
    (d1 d2 d3 d4 d5 d6 : DF Val)
    (h1 : fetch_daily_sleep client (today - days_back) today = .ok d1)
    (h2 : fetch_daily_readiness client (today - days_back) today = .ok d2)
    (h3 : fetch_daily_activity client (today - days_back) today = .ok d3)
    (h4 : fetch_heart_rate client (today - days_back) today = .ok d4)
    (h5 : fetch_daily_stress client (today - days_back) today = .ok d5)
    (h6 : fetch_sleep_time_series client (today - days_back) today = .ok d6) :
    collect_all_data client days_back today
      = .ok ((sixTables d1 d2 d3 d4 d5 d6).filter (fun p => !p.2.isEmpty),
             ((sixTables d1 d2 d3 d4 d5 d6).filter (fun p => !p.2.isEmpty)).map
               (fun p => p.1 ++ ".csv"))
    ∧ ∀ n t, (n, t) ∈ (sixTables d1 d2 d3 d4 d5 d6).filter (fun p => !p.2.isEmpty)
        ↔ ((n, t) ∈ sixTables d1 d2 d3 d4 d5 d6 ∧ ¬ t.isEmpty) := by
  constructor
  · unfold collect_all_data get_date_range
    dsimp only
    rw [h1, h2, h3, h4, h5, h6]
    exact collectLoop_ok (sixTables d1 d2 d3 d4 d5 d6)
  · intro n t
    rw [List.mem_filter]
    simp

/-- Witness for C7: with a client that always fails, every fetcher
returns the empty frame and the collection and file list are empty. -/
theorem collect_all_data_keeps_nonempty_witness :
    collect_all_data (fun _ _ _ => none) 300 739000 = .ok ([], []) :=
  (collect_all_data_keeps_nonempty (fun _ _ _ => none) 300 739000
    DF.emptyDF DF.emptyDF DF.emptyDF DF.emptyDF DF.emptyDF DF.emptyDF
    rfl rfl rfl rfl rfl rfl).1

/-! ## C8: the merger never mutates its inputs -/

lemma addTableHeap_extends {h : Heap Val} {acci : Nat} {ti? : Option Nat} {cs : List String}
    {ren? : Option (List (String × String))} {sufl sufr : String} {h2 : Heap Val} {i2 : Nat}
    (hok : addTableHeap h acci ti? cs ren? sufl sufr = .ok (h2, i2)) :
    ∃ ext, h2 = h ++ ext := by
  cases ti? with
  | none =>
    simp only [addTableHeap] at hok
    injection hok with hok
    injection hok with hh hi
    exact ⟨[], by rw [← hh]; simp⟩
  | some ti =>
    simp only [addTableHeap] at hok
    split at hok
    · cases hp : (hget h ti).project cs with
      | error e =>
        rw [hp] at hok
        simp [Bind.bind, Except.bind] at hok
      | ok p =>
        rw [hp] at hok
        simp only [Bind.bind, Except.bind, halloc] at hok
        cases ren? with
        | some m =>
          dsimp only at hok
          split at hok
          · simp at hok
          · injection hok with hok
            injection hok with hh hi
            exact ⟨_, by rw [← hh, List.append_assoc, List.append_assoc, List.append_assoc]⟩
        | none =>
          dsimp only at hok
          split at hok
          · simp at hok
          · injection hok with hok
            injection hok with hh hi
            exact ⟨_, by rw [← hh, List.append_assoc, List.append_assoc]⟩
    · injection hok with hok
      injection hok with hh hi
      exact ⟨[], by rw [← hh]; simp⟩

/-- C8: `create_feature_summary` never mutates the tables in the
collection it is given: read over the explicit heap of frame objects,
every pandas call it makes only allocates, so the final heap extends the
initial one and every pre-existing frame — in particular each input
table the collection references — is identical before and after the
call. -/
theorem create_feature_summary_heap_frames
    {h : Heap Val} {d : List (String × Nat)} {h' : Heap Val} {res : Option Nat}
    (hok : create_feature_summary_heap h d = .ok (h', res)) :
    (∃ ext, h' = h ++ ext) ∧ ∀ i, i < h.length → hget h' i = hget h i := by
  have hmain : ∃ ext, h' = h ++ ext := by
    unfold create_feature_summary_heap at hok
    cases hsi : d.lookup "daily_sleep" with
    | none =>
      rw [hsi] at hok
      injection hok with hok
      injection hok with hh _
      exact ⟨[], by rw [← hh]; simp⟩
    | some si =>
      rw [hsi] at hok
      cases hri : d.lookup "daily_readiness" with
      | none =>
        rw [hri] at hok
        dsimp only at hok
        injection hok with hok
        injection hok with hh _
        exact ⟨[], by rw [← hh]; simp⟩
      | some ri =>
        rw [hri] at hok
        dsimp only at hok
        simp only [halloc, Bind.bind, Except.bind] at hok
        cases ha1 : addTableHeap (h ++ [hget h ri]) h.length (some si)
            ["day", "score", "contributors"] (some [("score", "sleep_score")]) "" "_sleep" with
        | error e => rw [ha1] at hok; simp at hok
        | ok hp1 =>
          rw [ha1] at hok
          obtain ⟨h1, i1⟩ := hp1
          dsimp only at hok
          obtain ⟨e1, he1⟩ := addTableHeap_extends ha1
          cases ha2 : addTableHeap h1 i1 (d.lookup "daily_activity")
              ["day", "score", "contributors"] (some [("score", "activity_score")]) "" "_activity" with
          | error e => rw [ha2] at hok; simp at hok
          | ok hp2 =>
            rw [ha2] at hok
            obtain ⟨h2, i2o⟩ := hp2
            dsimp only at hok
            obtain ⟨e2, he2⟩ := addTableHeap_extends ha2
            cases ha3 : addTableHeap h2 i2o (d.lookup "daily_stress")
                ["day", "stress_high", "recovery_high"] none "_x" "_y" with
            | error e => rw [ha3] at hok; simp at hok
            | ok hp3 =>
              rw [ha3] at hok
              obtain ⟨h3, i3⟩ := hp3
              dsimp only at hok
              obtain ⟨e3, he3⟩ := addTableHeap_extends ha3
              injection hok with hok
              injection hok with hh _
              refine ⟨[hget h ri] ++ e1 ++ e2 ++ e3, ?_⟩
              rw [← hh, he3, he2, he1]
              simp [List.append_assoc]
  refine ⟨hmain, ?_⟩
  obtain ⟨ext, rfl⟩ := hmain
  intro i hi
  unfold hget
  exact List.getD_append _ _ _ _ hi

/-- Witness inputs for C8: the heap holding the two fixture tables and a
collection referencing them. -/
def heap0 : Heap Val :=
  match create_feature_summary_heap [R0, S0] [("daily_sleep", 1), ("daily_readiness", 0)] with
  | .ok (hh, _) => hh
  | _ => []

/-- Witness for C8: after running the merger over the heap `[R0, S0]`,
the frame the collection's `daily_readiness` entry references is
unchanged. -/
theorem create_feature_summary_heap_frames_witness :
    hget heap0 0 = hget [R0, S0] 0 :=
  (@create_feature_summary_heap_frames [R0, S0] [("daily_sleep", 1), ("daily_readiness", 0)]
    heap0 (some 6) rfl).2 0 (by decide)

/-! ## C10: missing projection columns raise instead of degrading -/

lemma addTable_error_of_missing_cols {acc t : DF Val} {cs : List String}
    {ren? : Option (List (String × String))} {sufl sufr : String}
    (hne : ¬ t.isEmpty = true) (hcols : ¬ ∀ c ∈ cs, c ∈ t.cols) :
    addTable acc (some t) cs ren? sufl sufr = .error "KeyError" := by
  simp only [addTable]
  rw [if_pos hne]
  unfold DF.project
  rw [if_neg hcols]
  simp [Bind.bind, Except.bind]

/-- C10: the soft-failure (`None`) path of `create_feature_summary`
covers only the absence of the two mandatory datasets.  With both
present: (a) a non-empty `daily_sleep` lacking one of `day`, `score`,
`contributors` makes the column projection raise KeyError to the caller;
(b) once the sleep step succeeded, a present non-empty `daily_activity`
lacking one of those columns raises likewise; (c) once the sleep and
activity steps succeeded, a present non-empty `daily_stress` lacking one
of `day`, `stress_high`, `recovery_high` raises likewise; and (d) with
both mandatory datasets present the function never returns the absent
result. -/
theorem create_feature_summary_raises_on_missing_cols
    {d : Collection} {S R : DF Val}
    (hS : d.lookup "daily_sleep" = some S)
    (hR : d.lookup "daily_readiness" = some R) :
    (¬ S.isEmpty = true → ¬ (∀ c ∈ ["day", "score", "contributors"], c ∈ S.cols) →
      create_feature_summary d = .error "KeyError")
    ∧ (∀ acc1 A, addTable R (some S) ["day", "score", "contributors"]
          (some [("score", "sleep_score")]) "" "_sleep" = .ok acc1 →
        d.lookup "daily_activity" = some A → ¬ A.isEmpty = true →
        ¬ (∀ c ∈ ["day", "score", "contributors"], c ∈ A.cols) →
        create_feature_summary d = .error "KeyError")
    ∧ (∀ acc1 acc2 T, addTable R (some S) ["day", "score", "contributors"]
          (some [("score", "sleep_score")]) "" "_sleep" = .ok acc1 →
        addTable acc1 (d.lookup "daily_activity") ["day", "score", "contributors"]
          (some [("score", "activity_score")]) "" "_activity" = .ok acc2 →
        d.lookup "daily_stress" = some T → ¬ T.isEmpty = true →
        ¬ (∀ c ∈ ["day", "stress_high", "recovery_high"], c ∈ T.cols) →
        create_feature_summary d = .error "KeyError")
    ∧ (∀ fs, create_feature_summary d ≠ .ok (none, fs)) := by
  refine ⟨?_, ?_, ?_, ?_⟩
  · intro hne hcols
    unfold create_feature_summary
    rw [hS, hR]
    dsimp only
    rw [addTable_error_of_missing_cols hne hcols]
    simp [Bind.bind, Except.bind]
  · intro acc1 A h1 hA hne hcols
    unfold create_feature_summary
    rw [hS, hR]
    dsimp only
    rw [h1]
    simp only [Bind.bind, Except.bind]
    rw [hA, addTable_error_of_missing_cols hne hcols]
  · intro acc1 acc2 T h1 h2 hT hne hcols
    unfold create_feature_summary
    rw [hS, hR]
    dsimp only
    rw [h1]
    simp only [Bind.bind, Except.bind]
    rw [h2]
    dsimp only
    rw [hT, addTable_error_of_missing_cols hne hcols]
  · intro fs hok
    unfold create_feature_summary at hok
    rw [hS, hR] at hok
    dsimp only at hok
    cases h1 : addTable R (some S) ["day", "score", "contributors"]
        (some [("score", "sleep_score")]) "" "_sleep" with
    | error e => rw [h1] at hok; simp [Bind.bind, Except.bind] at hok
    | ok acc1 =>
      rw [h1] at hok
      simp only [Bind.bind, Except.bind] at hok
      cases h2 : addTable acc1 (d.lookup "daily_activity") ["day", "score", "contributors"]
          (some [("score", "activity_score")]) "" "_activity" with
      | error e => rw [h2] at hok; simp at hok
      | ok acc2 =>
        rw [h2] at hok
        dsimp only at hok
        cases h3 : addTable acc2 (d.lookup "daily_stress")
            ["day", "stress_high", "recovery_high"] none "_x" "_y" with
        | error e => rw [h3] at hok; simp at hok
        | ok acc3 =>
          rw [h3] at hok
          dsimp only at hok
          simp at hok

/-- A sleep table that is present and non-empty but lacks `score`. -/
def Sbad : DF Val :=
  ⟨["day", "contributors"], [[some (Val.prim (Prim.str "2024-01-01")), none]]⟩

/-- Witness for C10: on a collection whose non-empty `daily_sleep` lacks
the `score` column, `create_feature_summary` raises KeyError. -/
theorem create_feature_summary_raises_on_missing_cols_witness :
    create_feature_summary [("daily_sleep", Sbad), ("daily_readiness", R0)]
      = .error "KeyError" :=
  (@create_feature_summary_raises_on_missing_cols
    [("daily_sleep", Sbad), ("daily_readiness", R0)] Sbad R0 rfl rfl).1
    (by decide) (by decide)
